import Mathlib

/- Shallow embedding of the Workouts_App backend workout engine:
   src/backend/models.py (pydantic data model), src/backend/workout_engine.py
   (WorkoutEngine: pipeline stage functions and public API), and the narrow
   database interface of src/backend/database.py (DatabaseManager), modeled as
   a key-value store.

   Conventions of the embedding:
   - Python ints are Lean Int; Python float arithmetic is modeled with exact
     rationals (Rat).  Every numeric literal appearing in the engine's
     threshold comparisons (0.6, 0.8, 8, 7, 8.5, 1.0) and in the inputs of the
     properties below is exactly representable as a double, so the float
     comparisons of the source and the rational comparisons of the model agree.
   - A Python function that can raise is an `Except String α`; the string is
     the exception rendered as text (messages are abbreviated where the claims
     do not depend on their exact wording).
   - External collaborators are parameters: the generative-model boundary is
     the outcome (`Except String String`) of the single `llm.ainvoke` call a
     stage makes, and the Python `json.loads` of the standard library is a
     parameter `loads : String → Except String Json`.  SQLite persistence is a
     total key-value store (writes cannot fail in the model).
   - datetime fields (created_at / updated_at / completed_at) carry no claim
     and are omitted from the records. -/

namespace WorkoutsApp

/-! ## Data model (src/backend/models.py) -/

/-- models.py `WorkoutDay` (str enum): Monday–Friday only. -/
inductive WorkoutDay where
  | monday | tuesday | wednesday | thursday | friday
deriving DecidableEq, Repr

/-- The enum member's string value, as embedded in the validator's messages. -/
def WorkoutDay.value : WorkoutDay → String
  | .monday => "monday"
  | .tuesday => "tuesday"
  | .wednesday => "wednesday"
  | .thursday => "thursday"
  | .friday => "friday"

/-- models.py `WorkoutDay(...)` construction from a string value. -/
def WorkoutDay.ofValue : String → Option WorkoutDay
  | "monday" => some .monday
  | "tuesday" => some .tuesday
  | "wednesday" => some .wednesday
  | "thursday" => some .thursday
  | "friday" => some .friday
  | _ => none

/-- models.py `ExperienceLevel` (str enum). -/
inductive ExperienceLevel where
  | beginner | intermediate | advanced
deriving DecidableEq, Repr

def ExperienceLevel.value : ExperienceLevel → String
  | .beginner => "beginner"
  | .intermediate => "intermediate"
  | .advanced => "advanced"

/-- models.py `Schedule`. -/
structure Schedule where
  days_per_week : Int := 5
  session_duration : Int := 45
  preferred_times : List String := ["morning"]
deriving DecidableEq, Repr

/-- models.py `Constraints`. -/
structure Constraints where
  injuries : List String := []
  limitations : List String := []
deriving DecidableEq, Repr

/-- models.py `PlannedExercise`. -/
structure PlannedExercise where
  exercise_id : String
  exercise_name : String
  sets : Int
  reps : String
  rest_seconds : Int
  target_rpe : Int
  notes : Option String := none
deriving DecidableEq, Repr

/-- models.py `DayPlan`. -/
structure DayPlan where
  day : WorkoutDay
  focus : String
  exercises : List PlannedExercise
  estimated_duration : Int
deriving DecidableEq, Repr

/-- models.py `UserProfile` (timestamps omitted). -/
structure UserProfile where
  user_id : String
  goals : List String
  experience_level : ExperienceLevel
  equipment : List String
  schedule : Schedule
  constraints : Constraints
deriving DecidableEq, Repr

/-- models.py `WorkoutPlan` (created_at omitted). -/
structure WorkoutPlan where
  plan_id : String
  user_id : String
  week_number : Int
  days : List DayPlan
  adaptation_rationale : Option String := none
deriving DecidableEq, Repr

/-- models.py `CompletedExercise` (weight as exact rational). -/
structure CompletedExercise where
  exercise_id : String
  exercise_name : String
  completed_sets : Int
  actual_reps : List Int
  weight_used : Option Rat := none
  rpe : Int
  notes : Option String := none
deriving DecidableEq, Repr

/-- models.py `WorkoutLog` (completed_at omitted). -/
structure WorkoutLog where
  log_id : String
  user_id : String
  plan_id : String
  day : WorkoutDay
  exercises : List CompletedExercise
  session_rpe : Int
  duration_minutes : Int
  general_feedback : Option String := none
deriving DecidableEq, Repr

/-- models.py `ProgressionIndicators`. -/
structure ProgressionIndicators where
  strength_gains : Bool := false
  endurance_improvements : Bool := false
  form_quality : String := "stable"
deriving DecidableEq, Repr

/-- models.py `WeeklyMetrics` record (float fields as Rat). -/
structure WeeklyMetrics where
  user_id : String
  week_number : Int
  adherence_rate : Rat
  average_rpe : Rat
  completed_sessions : Int
  total_planned_sessions : Int
  progression_indicators : ProgressionIndicators
  concerns : List String := []
deriving DecidableEq, Repr

/-- pydantic validation performed by the `WeeklyMetrics(...)` constructor:
models.py declares `adherence_rate: float = Field(ge=0.0, le=1.0)`; the other
fields are unconstrained.  Construction raises a ValidationError when the
bound fails. -/
def WeeklyMetrics.validated (user_id : String) (week_number : Int)
    (adherence_rate average_rpe : Rat) (completed_sessions total_planned_sessions : Int)
    (progression_indicators : ProgressionIndicators) (concerns : List String) :
    Except String WeeklyMetrics :=
  if adherence_rate < 0 then
    .error "ValidationError: adherence_rate must be greater than or equal to 0"
  else if adherence_rate > 1 then
    .error "ValidationError: adherence_rate must be less than or equal to 1"
  else
    .ok { user_id, week_number, adherence_rate, average_rpe, completed_sessions,
          total_planned_sessions, progression_indicators, concerns }

/-- The `insights` payload stored by the feedback-analysis stage into the
`feedback_analysis` dict and consumed by the adaptation stage via
`.get("pain_flags")` / `.get("schedule_conflicts")` (workout_engine.py lines
225, 228).  Only the consumed keys are modeled. -/
structure InsightsData where
  sentiment : Option String := none
  fatigue_indicators : List String := []
  pain_flags : List String := []
  preferences : List String := []
  schedule_conflicts : List String := []
deriving DecidableEq, Repr

/-- The `state.feedback_analysis : Dict[str, Any]` scratch area, restricted to
the two keys the engine reads/writes: `raw_feedback` and `insights`. -/
structure FeedbackAnalysis where
  raw_feedback : Option String := none
  insights : Option InsightsData := none
deriving DecidableEq, Repr

/-- The `state.adaptation_context : Dict[str, Any]` scratch area, restricted to
the keys the engine reads/writes: `adaptations`, `reasoning`, `rationale`.
The initial empty dict is the default record (`.get` with defaults `[]` and
`""`). -/
structure AdaptationContext where
  adaptations : List String := []
  reasoning : String := ""
  rationale : Option String := none
deriving DecidableEq, Repr

/-- models.py `WorkoutState` (the LangGraph state object). -/
structure WorkoutState where
  user_profile : Option UserProfile := none
  current_week : Int := 1
  plan_history : List WorkoutPlan := []
  current_plan : Option WorkoutPlan := none
  logs : List WorkoutLog := []
  feedback_analysis : FeedbackAnalysis := {}
  metrics : Option WeeklyMetrics := none
  adaptation_context : AdaptationContext := {}
  workflow_stage : String := "plan_generation"
  error_context : Option String := none
deriving DecidableEq, Repr

/-! ## Database interface (src/backend/database.py, external collaborator)

The SQLite store is modeled as a key-value store: profiles keyed by user id,
plans keyed by plan id, and the plan-week join `get_week_logs(user_id, week)`
as a lookup function.  Reads return the value together with the unchanged
store; writes return the updated store. -/

structure Database where
  profiles : String → Option UserProfile
  plans : String → Option WorkoutPlan
  week_logs : String → Int → List WorkoutLog

/-- Embedding of `DatabaseManager.get_user_profile` (a read: the store is unchanged). -/
def Database.get_user_profile (db : Database) (user_id : String) :
    Option UserProfile × Database :=
  (db.profiles user_id, db)

/-- Embedding of `DatabaseManager.get_workout_plan` (a read: the store is unchanged). -/
def Database.get_workout_plan (db : Database) (plan_id : String) :
    Option WorkoutPlan × Database :=
  (db.plans plan_id, db)

/-- Embedding of `DatabaseManager.save_workout_plan` (INSERT OR REPLACE keyed by plan_id). -/
def Database.save_workout_plan (db : Database) (plan : WorkoutPlan) : Database :=
  { db with plans := fun pid => if pid = plan.plan_id then some plan else db.plans pid }

/-- Embedding of `DatabaseManager.get_week_logs` (a read: the store is unchanged). -/
def Database.get_week_logs (db : Database) (user_id : String) (week_number : Int) :
    List WorkoutLog × Database :=
  (db.week_logs user_id week_number, db)

/-! ## Plan Validator/Repairer (workout_engine.py lines 548-579) -/

/-- Embedding of `WorkoutEngine._validate_plan_structure` (lines 548-562): an accumulator
list built exactly as the Python loop does — the "no days" finding first, then
per day (in order) a time-budget finding when
`day.estimated_duration > profile.schedule.session_duration + 15`, then a
"no exercises" finding when the day's exercise list is empty. -/
def validate_plan_structure (plan : WorkoutPlan) (profile : UserProfile) : List String :=
  let errors := if plan.days.isEmpty then ["No workout days defined"] else []
  plan.days.foldl
    (fun errs day =>
      let errs1 :=
        if day.estimated_duration > profile.schedule.session_duration + 15 then
          errs ++ [day.day.value ++ " exceeds time limit"]
        else errs
      if day.exercises.isEmpty then
        errs1 ++ [day.day.value ++ " has no exercises"]
      else errs1)
    errors

/-- The minimal placeholder exercise inserted by `_fix_plan_issues`
(lines 569-578). -/
def placeholder_exercise : PlannedExercise :=
  { exercise_id := "push_ups", exercise_name := "Push-ups", sets := 2,
    reps := "5-10", rest_seconds := 60, target_rpe := 6 }

/-- Embedding of `WorkoutEngine._fix_plan_issues` (lines 564-579): every day with an empty
exercise list receives the single placeholder exercise; all other days (and
every other field, including estimated durations) are untouched.  The
`errors` and `profile` arguments are accepted but unused, as in the source
(the profile is optional because `_plan_validation_node` passes
`state.user_profile`, which can be `None`, without this function reading it). -/
def fix_plan_issues (plan : WorkoutPlan) (errors : List String)
    (profile : Option UserProfile) : WorkoutPlan :=
  { plan with
    days := plan.days.map fun day =>
      if day.exercises.isEmpty then { day with exercises := [placeholder_exercise] }
      else day }

/-- The validate-then-fix pass performed by `_plan_validation_node`
(lines 110-115): compute the violations; when any exist, run the repairer. -/
def repair_pass (plan : WorkoutPlan) (profile : UserProfile) : WorkoutPlan :=
  let validation_errors := validate_plan_structure plan profile
  if validation_errors ≠ [] then fix_plan_issues plan validation_errors (some profile)
  else plan

/-! ## JSON values and pydantic `model_validate` (external `json.loads` is a
parameter; the payload validation below is the one the pydantic models of
models.py perform) -/

inductive Json where
  | null
  | bool (b : Bool)
  | num (q : Rat)
  | str (s : String)
  | arr (elems : List Json)
  | obj (fields : List (String × Json))
deriving Repr

/-- Dictionary key lookup (`data["k"]` / `"k" in data`); `none` on a non-dict
value, where the Python code would raise and the callers below treat the raise
and the missing key alike. -/
def Json.getKey : Json → String → Option Json
  | .obj fields, k => (fields.find? (fun kv => kv.1 = k)).map (fun kv => kv.2)
  | _, _ => none

/-- Python truthiness of a JSON value (`not data["days"]`). -/
def Json.truthy : Json → Bool
  | .null => false
  | .bool b => b
  | .num q => decide (q ≠ 0)
  | .str s => decide (s ≠ "")
  | .arr elems => !elems.isEmpty
  | .obj fields => !fields.isEmpty

/-- The opening-brace character (written by code point to keep brace
characters out of the literals of this file). -/
def lbrace : Char := Char.ofNat 123

/-- The closing-brace character. -/
def rbrace : Char := Char.ofNat 125

/-- Python `str.find(c)`: index of the first occurrence, or -1. -/
def pyFind (s : String) (c : Char) : Int :=
  match s.toList.findIdx? (fun x => x = c) with
  | some i => (i : Int)
  | none => -1

/-- Python `str.rfind(c)`: index of the last occurrence, or -1. -/
def pyRFind (s : String) (c : Char) : Int :=
  match s.toList.reverse.findIdx? (fun x => x = c) with
  | some i => (s.toList.length : Int) - 1 - (i : Int)
  | none => -1

/-- Python slice `s[a:b]`: negative indices count from the end, out-of-range
indices are clamped, and an empty string results when the range is empty. -/
def pySlice (s : String) (a b : Int) : String :=
  let n : Int := (s.toList.length : Int)
  let norm : Int → Int := fun i => if i < 0 then max (i + n) 0 else min i n
  String.mk (((s.toList).drop (norm a).toNat).take ((norm b) - (norm a)).toNat)

/-- Required-field lookup during pydantic validation. -/
def Json.req (j : Json) (k : String) : Except String Json :=
  match j.getKey k with
  | some v => .ok v
  | none => .error ("ValidationError: field required: " ++ k)

def Json.asStr : Json → Except String String
  | .str s => .ok s
  | _ => .error "ValidationError: input should be a valid string"

/-- pydantic `int` field: accepts an integral number (lax coercion of
integral floats; numeric strings are not modeled, no claim depends on them). -/
def Json.asInt : Json → Except String Int
  | .num q => if q.den = 1 then .ok q.num else .error "ValidationError: input should be a valid integer"
  | _ => .error "ValidationError: input should be a valid integer"

/-- Embedding of `Optional[str]` field: absent or null is `None`. -/
def Json.optStr (j : Json) (k : String) : Except String (Option String) :=
  match j.getKey k with
  | none => .ok none
  | some .null => .ok none
  | some v => v.asStr.map some

/-- Embedding of `PlannedExercise.model_validate` per models.py lines 61-68, including the
`target_rpe: int = Field(ge=1, le=10)` bound. -/
def PlannedExercise.model_validate (j : Json) : Except String PlannedExercise := do
  let exercise_id ← (← j.req "exercise_id").asStr
  let exercise_name ← (← j.req "exercise_name").asStr
  let sets ← (← j.req "sets").asInt
  let reps ← (← j.req "reps").asStr
  let rest_seconds ← (← j.req "rest_seconds").asInt
  let target_rpe ← (← j.req "target_rpe").asInt
  if target_rpe < 1 then
    .error "ValidationError: target_rpe must be greater than or equal to 1"
  else if target_rpe > 10 then
    .error "ValidationError: target_rpe must be less than or equal to 10"
  else do
    let notes ← j.optStr "notes"
    .ok { exercise_id, exercise_name, sets, reps, rest_seconds, target_rpe, notes }

/-- Embedding of `DayPlan.model_validate` per models.py lines 70-74 (the `day` field is the
`WorkoutDay` enum: only monday..friday values validate). -/
def DayPlan.model_validate (j : Json) : Except String DayPlan := do
  let dayStr ← (← j.req "day").asStr
  let day ← match WorkoutDay.ofValue dayStr with
    | some d => Except.ok d
    | none => Except.error "ValidationError: day must be one of monday..friday"
  let focus ← (← j.req "focus").asStr
  let exercisesJson ← match (← j.req "exercises") with
    | .arr xs => Except.ok xs
    | _ => Except.error "ValidationError: exercises should be a valid list"
  let exercises ← exercisesJson.mapM PlannedExercise.model_validate
  let estimated_duration ← (← j.req "estimated_duration").asInt
  .ok { day, focus, exercises, estimated_duration }

/-! ## Response parsers and plan templates (workout_engine.py) -/

/-- The literal fallback structure returned by `_parse_plan_response`
(lines 336-355): a single monday day with one push-ups exercise. -/
def fallback_plan_data : Json :=
  .obj [("days", .arr [
    .obj [("day", .str "monday"), ("focus", .str "upper_body"),
          ("exercises", .arr [
            .obj [("exercise_id", .str "push_ups"), ("exercise_name", .str "Push-ups"),
                  ("sets", .num 3), ("reps", .str "8-12"), ("rest_seconds", .num 60),
                  ("target_rpe", .num 7), ("notes", .str "Focus on form")]]),
          ("estimated_duration", .num 45)]])]

/-- The literal fallback structure returned by `_parse_ai_response`
(lines 706-727): a single monday day with one push-ups exercise, plus a
rationale string. -/
def fallback_ai_data : Json :=
  .obj [("days", .arr [
    .obj [("day", .str "monday"), ("focus", .str "upper_body"),
          ("exercises", .arr [
            .obj [("exercise_id", .str "push_ups"), ("exercise_name", .str "Push-ups"),
                  ("sets", .num 3), ("reps", .str "8-12"), ("rest_seconds", .num 60),
                  ("target_rpe", .num 7), ("notes", .str "AI generation failed, using fallback")]]),
          ("estimated_duration", .num 30)]]),
        ("rationale", .str "Fallback plan due to AI parsing error")]

/-- Embedding of `WorkoutEngine._parse_plan_response` (lines 326-355): slice from the first
opening brace to the last closing brace (Python slice semantics; no index
check here, unlike `_parse_ai_response`), `json.loads` the slice; any
exception yields the fixed fallback structure. -/
def parse_plan_response (loads : String → Except String Json) (response : String) : Json :=
  match loads (pySlice response (pyFind response lbrace) (pyRFind response rbrace + 1)) with
  | .ok data => data
  | .error _ => fallback_plan_data

/-- Embedding of `WorkoutEngine._parse_ai_response` (lines 686-727): find the JSON span;
a missing span, a `json.loads` failure, or a missing/falsy `days` entry all
raise inside the `try` and the fixed fallback structure is returned. -/
def parse_ai_response (loads : String → Except String Json) (response : String) : Json :=
  let start := pyFind response lbrace
  let stop := pyRFind response rbrace + 1
  if start = -1 ∨ stop = 0 then fallback_ai_data
  else
    match loads (pySlice response start stop) with
    | .error _ => fallback_ai_data
    | .ok data =>
      match data.getKey "days" with
      | none => fallback_ai_data
      | some d => if d.truthy then data else fallback_ai_data

/-- Embedding of `WorkoutEngine._create_fallback_plan` (lines 522-546): single-day template
used by `_plan_generation_node`'s except handler; the fresh uuid is the
`plan_id` parameter.  Dereferences `profile.user_id`. -/
def create_fallback_plan (profile : UserProfile) (week_number : Int) (plan_id : String) :
    WorkoutPlan :=
  { plan_id, user_id := profile.user_id, week_number,
    days := [
      { day := .monday, focus := "full_body",
        exercises := [
          { exercise_id := "push_ups", exercise_name := "Push-ups", sets := 3,
            reps := "8-12", rest_seconds := 60, target_rpe := 7 }],
        estimated_duration := 30 }],
    adaptation_rationale := some "Fallback plan due to AI generation issue" }

/-- Embedding of `WorkoutEngine._create_simple_plan` (lines 357-520): the hand-authored
five-day template, parameterized only by the dumbbells/resistance-band
substitution on the Monday row exercise. -/
def create_simple_plan (profile : UserProfile) (week_number : Int) (plan_id : String) :
    WorkoutPlan :=
  { plan_id, user_id := profile.user_id, week_number,
    days := [
      { day := .monday, focus := "upper_body",
        exercises := [
          { exercise_id := "push_ups", exercise_name := "Push-ups", sets := 3,
            reps := "8-15", rest_seconds := 60, target_rpe := 7,
            notes := some "Modify on knees if needed" },
          { exercise_id := "dumbbell_rows",
            exercise_name := if "dumbbells" ∈ profile.equipment then "Dumbbell Rows"
                             else "Resistance Band Rows",
            sets := 3, reps := "10-12", rest_seconds := 90, target_rpe := 7,
            notes := some "Keep back straight, squeeze shoulder blades" },
          { exercise_id := "planks", exercise_name := "Plank Hold", sets := 3,
            reps := "30-60 seconds", rest_seconds := 60, target_rpe := 6,
            notes := some "Keep straight body line" }],
        estimated_duration := 40 },
      { day := .tuesday, focus := "lower_body",
        exercises := [
          { exercise_id := "squats", exercise_name := "Bodyweight Squats", sets := 3,
            reps := "12-20", rest_seconds := 60, target_rpe := 7,
            notes := some "Full depth, weight in heels" },
          { exercise_id := "lunges", exercise_name := "Forward Lunges", sets := 3,
            reps := "10 each leg", rest_seconds := 60, target_rpe := 7,
            notes := some "Keep front knee over ankle" }],
        estimated_duration := 35 },
      { day := .wednesday, focus := "cardio",
        exercises := [
          { exercise_id := "jumping_jacks", exercise_name := "Jumping Jacks", sets := 4,
            reps := "30 seconds", rest_seconds := 30, target_rpe := 8,
            notes := some "High intensity intervals" },
          { exercise_id := "mountain_climbers", exercise_name := "Mountain Climbers",
            sets := 3, reps := "20 seconds", rest_seconds := 40, target_rpe := 7,
            notes := some "Keep hips level" }],
        estimated_duration := 25 },
      { day := .thursday, focus := "upper_body",
        exercises := [
          { exercise_id := "push_ups", exercise_name := "Push-ups (Different Variation)",
            sets := 3, reps := "10-18", rest_seconds := 60, target_rpe := 8,
            notes := some "Try diamond or wide variations" },
          { exercise_id := "tricep_dips", exercise_name := "Tricep Dips", sets := 3,
            reps := "8-12", rest_seconds := 60, target_rpe := 7,
            notes := some "Use chair or bench" }],
        estimated_duration := 30 },
      { day := .friday, focus := "full_body",
        exercises := [
          { exercise_id := "burpees", exercise_name := "Modified Burpees", sets := 3,
            reps := "5-10", rest_seconds := 90, target_rpe := 8,
            notes := some "Step back instead of jumping if needed" },
          { exercise_id := "squats", exercise_name := "Bodyweight Squats", sets := 2,
            reps := "15", rest_seconds := 45, target_rpe := 6,
            notes := some "Focus on form" },
          { exercise_id := "push_ups", exercise_name := "Push-ups", sets := 2,
            reps := "8-12", rest_seconds := 45, target_rpe := 6,
            notes := some "End the week strong!" }],
        estimated_duration := 35 }],
    adaptation_rationale := some ("Week " ++ toString week_number
      ++ " plan customized for " ++ profile.experience_level.value
      ++ " level with available equipment: " ++ String.intercalate ", " profile.equipment) }

/-- Embedding of `plan_data["days"]`: raises KeyError when absent and is not iterable as
day payloads unless it is a list. -/
def days_field (plan_data : Json) : Except String (List Json) :=
  match plan_data.getKey "days" with
  | some (.arr xs) => Except.ok xs
  | some _ => Except.error "TypeError: plan days are not iterable"
  | none => Except.error "KeyError: days"

/-- Embedding of `plan_data.get("rationale", default)` followed by the pydantic
`Optional[str]` validation of the `adaptation_rationale` field. -/
def rationale_field (plan_data : Json) (default : String) : Except String (Option String) :=
  match plan_data.getKey "rationale" with
  | none => Except.ok (some default)
  | some .null => Except.ok none
  | some (.str s) => Except.ok (some s)
  | some _ => Except.error "ValidationError: rationale should be a valid string"

/-- Embedding of `WorkoutEngine._generate_ai_plan` (lines 588-608): invoke the model
(`llmResult` is the call's outcome), parse, then build the WorkoutPlan with
`DayPlan.model_validate` on each payload day; validation failures raise to the
caller. -/
def generate_ai_plan (llmResult : Except String String)
    (loads : String → Except String Json) (plan_id : String)
    (profile : UserProfile) (week_number : Int) : Except String WorkoutPlan :=
  match llmResult with
  | .error e => Except.error e
  | .ok response =>
    let plan_data := parse_ai_response loads response
    match days_field plan_data with
    | .error e => Except.error e
    | .ok daysJson =>
      match daysJson.mapM DayPlan.model_validate with
      | .error e => Except.error e
      | .ok days =>
        match rationale_field plan_data
            ("AI-generated plan for week " ++ toString week_number) with
        | .error e => Except.error e
        | .ok rationale =>
          Except.ok { plan_id, user_id := profile.user_id, week_number, days,
                      adaptation_rationale := rationale }

/-! ## Public API (workout_engine.py lines 729-816) -/

/-- Embedding of `WorkoutEngine.generate_plan` (lines 730-748): load the profile (raise if
absent), try the AI plan, fall back to the five-day template on any raise,
save, return.  `ai_plan_id` / `template_plan_id` are the fresh uuids drawn on
the respective paths. -/
def generate_plan (db : Database) (llmResult : Except String String)
    (loads : String → Except String Json) (ai_plan_id template_plan_id : String)
    (user_id : String) (week_number : Int) : Except String (WorkoutPlan × Database) :=
  match (db.get_user_profile user_id).1 with
  | none => .error "ValueError: User profile not found"
  | some profile =>
    let plan :=
      match generate_ai_plan llmResult loads ai_plan_id profile week_number with
      | .ok p => p
      | .error _ => create_simple_plan profile week_number template_plan_id
    .ok (plan, db.save_workout_plan plan)

/-- Embedding of `WorkoutEngine.get_plan` (lines 750-755): load by plan id, return it only
when the stored plan's owner matches the requesting user id.  The store is
returned unchanged (the lookup is a read). -/
def get_plan (db : Database) (plan_id user_id : String) :
    Option WorkoutPlan × Database :=
  let (plan, db1) := db.get_workout_plan plan_id
  match plan with
  | some p => if p.user_id = user_id then (some p, db1) else (none, db1)
  | none => (none, db1)

/-! ## Pipeline stage functions (workout_engine.py lines 56-279)

Each stage takes the shared state and returns `Except String WorkoutState`:
`.ok` is the Python function returning the (possibly mutated) state, `.error`
is an exception escaping the stage.  Each stage's single model call, when it
makes one, is the `llmResult` parameter. -/

/-- Lift an optional Python value whose attribute is about to be read:
`None` raises AttributeError. -/
def ofAttr {α : Type} : Option α → Except String α
  | some a => .ok a
  | none => .error "AttributeError: NoneType object has no attribute"

/-- Embedding of `WorkoutEngine._profile_intake_node` (lines 56-69): the whole body is in a
`try`; the handler records the error, so the stage always returns a state. -/
def profile_intake_node (db : Database) (s : WorkoutState) : Except String WorkoutState :=
  match
    (do
      -- `state.user_profile.user_id` raises when the profile is absent
      let up ← ofAttr s.user_profile
      match (db.get_user_profile up.user_id).1 with
      | some profile =>
        Except.ok { s with user_profile := some profile, workflow_stage := "profile_complete" }
      | none =>
        Except.ok { s with error_context := some "Profile not found" } :
      Except String WorkoutState)
  with
  | .ok s1 => .ok s1
  | .error e => .ok { s with error_context := some ("Profile intake error: " ++ e) }

/-- The `try` body of `_plan_generation_node` (lines 73-95): build the prompt
(dereferences the profile's fields, so an absent profile raises here), invoke
the model, parse, and construct the plan from the raw payload days. -/
def plan_generation_body (llmResult : Except String String)
    (loads : String → Except String Json) (plan_id : String) (s : WorkoutState) :
    Except String WorkoutState := do
  let profile ← ofAttr s.user_profile
  let response ← llmResult
  let plan_data := parse_plan_response loads response
  let daysJson ← days_field plan_data
  let days ← daysJson.mapM DayPlan.model_validate
  let rationale ← rationale_field plan_data "Initial plan generation"
  let plan : WorkoutPlan :=
    { plan_id, user_id := profile.user_id, week_number := s.current_week, days,
      adaptation_rationale := rationale }
  Except.ok { s with current_plan := some plan, workflow_stage := "plan_generated" }

/-- Embedding of `WorkoutEngine._plan_generation_node` (lines 71-101).  The except handler
(lines 96-99) records the error and then calls
`_create_fallback_plan(state.user_profile, ...)`, which dereferences
`profile.user_id`: with an absent profile the handler itself raises out of
the stage. -/
def plan_generation_node (llmResult : Except String String)
    (loads : String → Except String Json) (plan_id fallback_plan_id : String)
    (s : WorkoutState) : Except String WorkoutState :=
  match plan_generation_body llmResult loads plan_id s with
  | .ok s1 => .ok s1
  | .error e =>
    match s.user_profile with
    | some profile =>
      .ok { s with error_context := some ("Plan generation error: " ++ e),
                   current_plan := some (create_fallback_plan profile s.current_week fallback_plan_id) }
    | none => .error "AttributeError: NoneType object has no attribute user_id"

/-- The `try` body of `_plan_validation_node` (lines 105-119): validate, fix
when violations exist, persist (external write, total in the model).  With an
absent plan, `_validate_plan_structure` raises reading `plan.days`; with an
absent profile it raises reading `profile.schedule.session_duration`, which
only happens when the plan has at least one day. -/
def plan_validation_body (s : WorkoutState) : Except String WorkoutState := do
  let plan ← ofAttr s.current_plan
  let validation_errors ←
    match s.user_profile with
    | some profile => Except.ok (validate_plan_structure plan profile)
    | none =>
      if plan.days.isEmpty then Except.ok ["No workout days defined"]
      else Except.error "AttributeError: NoneType object has no attribute schedule"
  let plan1 := if validation_errors ≠ [] then fix_plan_issues plan validation_errors s.user_profile
               else plan
  Except.ok { s with current_plan := some plan1, workflow_stage := "plan_validated" }

/-- Embedding of `WorkoutEngine._plan_validation_node` (lines 103-124): body in a `try`,
handler records the error, so the stage always returns a state. -/
def plan_validation_node (s : WorkoutState) : Except String WorkoutState :=
  match plan_validation_body s with
  | .ok s1 => .ok s1
  | .error e => .ok { s with error_context := some ("Plan validation error: " ++ e) }

/-- Embedding of `WorkoutEngine._feedback_analysis_node` (lines 131-164): no-op when no raw
feedback text; otherwise one model call whose response is `json.loads`-ed into
the insights entry (`loadsInsights` combines the external parse with the
projection to the consumed keys).  All failures are recorded, never raised. -/
def feedback_analysis_body (llmResult : Except String String)
    (loadsInsights : String → Except String InsightsData) (s : WorkoutState) :
    Except String WorkoutState := do
  let response ← llmResult
  let insights ← loadsInsights response
  Except.ok { s with
    feedback_analysis := { s.feedback_analysis with insights := some insights },
    workflow_stage := "feedback_analyzed" }

def feedback_analysis_node (llmResult : Except String String)
    (loadsInsights : String → Except String InsightsData) (s : WorkoutState) :
    Except String WorkoutState :=
  let feedback_text := s.feedback_analysis.raw_feedback.getD ""
  if feedback_text ≠ "" then
    match feedback_analysis_body llmResult loadsInsights s with
    | .ok s1 => .ok s1
    | .error e => .ok { s with error_context := some ("Feedback analysis error: " ++ e) }
  else
    .ok { s with workflow_stage := "feedback_analyzed" }

/-- Embedding of `len(state.current_plan.days) if state.current_plan else 5`
(workout_engine.py line 177): the planned-session denominator. -/
def planned_sessions (s : WorkoutState) : Int :=
  match s.current_plan with
  | some plan => (plan.days.length : Int)
  | none => 5

/-- The `try` body of `_metrics_calculation_node` (lines 168-203).  With zero
logs the metrics block is skipped and only the stage tag is set.  Otherwise
adherence and average exertion are computed and `WeeklyMetrics(...)` is
constructed, whose pydantic bound `adherence_rate <= 1.0` can raise; the
stage-tag assignment comes after, so it is skipped on a raise. -/
def metrics_calculation_body (db : Database) (s : WorkoutState) :
    Except String WorkoutState :=
  match s.user_profile with
  | none =>
    -- `user_id = state.user_profile.user_id` raises on an absent profile
    Except.error "AttributeError: NoneType object has no attribute user_id"
  | some profile =>
    let logs := (db.get_week_logs profile.user_id s.current_week).1
    if logs.isEmpty then
      Except.ok { s with workflow_stage := "metrics_calculated" }
    else
      let total_planned : Int := planned_sessions s
      let completed_sessions : Int := (logs.length : Int)
      -- `completed_sessions / total_planned` raises ZeroDivisionError on 0
      if total_planned = 0 then Except.error "ZeroDivisionError: division by zero"
      else
        let adherence_rate : Rat := (completed_sessions : Rat) / (total_planned : Rat)
        let avg_rpe : Rat :=
          ((logs.map (fun log => (log.session_rpe : Rat))).sum) / ((logs.length : Nat) : Rat)
        let progression : ProgressionIndicators :=
          { strength_gains := decide (avg_rpe < 8) && decide (adherence_rate > 0.8),
            endurance_improvements := true,
            form_quality := if avg_rpe < 7 then "improving" else "stable" }
        match WeeklyMetrics.validated profile.user_id s.current_week adherence_rate avg_rpe
            completed_sessions total_planned progression
            (if avg_rpe > 8.5 then ["high_fatigue"] else []) with
        | .error e => Except.error e
        | .ok metrics =>
          Except.ok { s with metrics := some metrics, workflow_stage := "metrics_calculated" }

/-- Embedding of `WorkoutEngine._metrics_calculation_node` (lines 166-208): body in a
`try`, handler records the error, so the stage always returns a state. -/
def metrics_calculation_node (db : Database) (s : WorkoutState) :
    Except String WorkoutState :=
  match metrics_calculation_body db s with
  | .ok s1 => .ok s1
  | .error e => .ok { s with error_context := some ("Metrics calculation error: " ++ e) }

/-- Embedding of `WorkoutEngine._build_adaptation_reasoning` (lines 581-586); Python's
percentage / one-decimal float formatting is abbreviated to `toString`. -/
def build_adaptation_reasoning (metrics : Option WeeklyMetrics) : String :=
  match metrics with
  | none => "No metrics available"
  | some m =>
    "Adherence: " ++ toString m.adherence_rate ++ ", Average RPE: "
      ++ toString m.average_rpe ++ ", Completed: " ++ toString m.completed_sessions
      ++ "/" ++ toString m.total_planned_sessions

/-- Embedding of `WorkoutEngine._adaptation_decision_node` (lines 210-241): four threshold
rules evaluated independently in a fixed order, appending to the action list;
`state.adaptation_context` is replaced by a fresh dict holding the actions and
the deterministic reasoning summary.  Nothing in the body can raise. -/
def adaptation_decision_node (s : WorkoutState) : Except String WorkoutState :=
  let metrics := s.metrics
  let feedback_insights := s.feedback_analysis.insights.getD {}
  let adaptations : List String :=
    (if match metrics with | some m => decide (m.adherence_rate < 0.6) | none => false
     then ["reduce_volume"] else [])
    ++ (if match metrics with | some m => decide (m.average_rpe > 8.5) | none => false
        then ["deload_intensity"] else [])
    ++ (if !feedback_insights.pain_flags.isEmpty then ["exercise_substitution"] else [])
    ++ (if !feedback_insights.schedule_conflicts.isEmpty then ["adjust_timing"] else [])
  Except.ok { s with
    adaptation_context := { adaptations, reasoning := build_adaptation_reasoning metrics },
    workflow_stage := "adaptation_decided" }

/-- Embedding of `WorkoutEngine._rationale_generation_node` (lines 243-274): one model call
when actions were chosen (its failure is recorded, not raised); otherwise the
fixed congratulatory message. -/
def rationale_generation_node (llmResult : Except String String) (s : WorkoutState) :
    Except String WorkoutState :=
  let adaptations := s.adaptation_context.adaptations
  if !adaptations.isEmpty then
    match llmResult with
    | .ok response =>
      .ok { s with
        adaptation_context := { s.adaptation_context with rationale := some response },
        workflow_stage := "rationale_generated" }
    | .error e => .ok { s with error_context := some ("Rationale generation error: " ++ e) }
  else
    .ok { s with
      adaptation_context := { s.adaptation_context with
        rationale := some "Great work this week! Continuing with progressive overload." },
      workflow_stage := "rationale_generated" }

/-! ## Helper lemmas -/

/-- A left fold that appends a per-element block to the accumulator produces
the accumulator followed by the concatenation of the blocks. -/
theorem foldl_accum_append {α : Type} (g : List String → α → List String)
    (f : α → List String) (hg : ∀ errs x, g errs x = errs ++ f x) :
    ∀ (xs : List α) (acc : List String), xs.foldl g acc = acc ++ xs.flatMap f := by
  intro xs
  induction xs with
  | nil => intro acc; simp
  | cons x xs ih =>
    intro acc
    rw [List.foldl_cons, hg, ih, List.flatMap_cons, List.append_assoc]

/-- The per-day findings of `_validate_plan_structure`, in emission order. -/
def day_findings (profile : UserProfile) (day : DayPlan) : List String :=
  (if day.estimated_duration > profile.schedule.session_duration + 15
   then [day.day.value ++ " exceeds time limit"] else [])
  ++ (if day.exercises.isEmpty then [day.day.value ++ " has no exercises"] else [])

/-- Closed form of the validator: the "no days" finding, then each day's
findings in day order. -/
theorem validate_plan_structure_eq (plan : WorkoutPlan) (profile : UserProfile) :
    validate_plan_structure plan profile =
      (if plan.days.isEmpty then ["No workout days defined"] else [])
        ++ plan.days.flatMap (day_findings profile) := by
  unfold validate_plan_structure
  refine foldl_accum_append _ (day_findings profile) (fun errs day => ?_) plan.days _
  unfold day_findings
  by_cases h1 : day.estimated_duration > profile.schedule.session_duration + 15 <;>
    by_cases h2 : day.exercises.isEmpty <;>
      simp [h1, h2, List.append_assoc]

/-- The single-day repair applied by `_fix_plan_issues` to each day. -/
def repair_day (day : DayPlan) : DayPlan :=
  if day.exercises.isEmpty then { day with exercises := [placeholder_exercise] } else day

theorem repair_day_idem (day : DayPlan) : repair_day (repair_day day) = repair_day day := by
  unfold repair_day
  by_cases h : day.exercises.isEmpty <;> simp [h]

/-- One validate-then-fix pass maps `repair_day` over the days and changes
nothing else (also when the validator reported nothing, since then no day is
empty and `repair_day` is the identity on every day). -/
theorem repair_pass_eq (plan : WorkoutPlan) (profile : UserProfile) :
    repair_pass plan profile = { plan with days := plan.days.map repair_day } := by
  unfold repair_pass
  by_cases h : validate_plan_structure plan profile = []
  · simp only [h, ne_eq, not_true_eq_false, if_false, ite_false]
    have hdays : ∀ day ∈ plan.days, repair_day day = day := by
      intro day hday
      have hbind : plan.days.flatMap (day_findings profile) = [] := by
        have := validate_plan_structure_eq plan profile
        rw [h] at this
        rcases List.append_eq_nil.mp this.symm with ⟨_, h2⟩
        exact h2
      have hf : day_findings profile day = [] := by
        rw [List.flatMap_eq_nil_iff] at hbind
        exact hbind day hday
      unfold day_findings at hf
      by_cases h2 : day.exercises.isEmpty
      · exfalso
        rcases List.append_eq_nil.mp hf with ⟨_, hr⟩
        simp [h2] at hr
      · unfold repair_day
        simp [h2]
    have : plan.days.map repair_day = plan.days := by
      calc plan.days.map repair_day = plan.days.map id :=
            List.map_congr_left (fun d hd => hdays d hd)
        _ = plan.days := List.map_id _
    rw [this]
  · simp only [h, ne_eq, not_false_eq_true, if_true, ite_true]
    rfl

/-- Decidable equality on `Except`, for evaluating concrete runs. -/
instance {ε α : Type} [DecidableEq ε] [DecidableEq α] : DecidableEq (Except ε α) :=
  fun x y =>
    match x, y with
    | .ok a, .ok b =>
      if h : a = b then isTrue (h ▸ rfl)
      else isFalse (fun hc => h (Except.ok.inj hc))
    | .ok _, .error _ => isFalse (fun hc => Except.noConfusion hc)
    | .error _, .ok _ => isFalse (fun hc => Except.noConfusion hc)
    | .error e, .error f =>
      if h : e = f then isTrue (h ▸ rfl)
      else isFalse (fun hc => h (Except.error.inj hc))

/-! ## Concrete fixtures for witnesses and counterexamples -/

/-- A valid beginner profile (equipment bodyweight only). -/
def beginnerProfile : UserProfile :=
  { user_id := "alice", goals := ["general_fitness"], experience_level := .beginner,
    equipment := ["bodyweight"], schedule := {}, constraints := {} }

/-- A store holding exactly the profile of user "alice". -/
def dbWithAlice : Database :=
  { profiles := fun uid => if uid = "alice" then some beginnerProfile else none,
    plans := fun _ => none,
    week_logs := fun _ _ => [] }

/-- A concrete `json.loads` outcome function that fails on every input (an
unparseable model response). -/
def failingLoads : String → Except String Json :=
  fun _ => Except.error "Expecting value: line 1 column 1 (char 0)"

/-- The five-day template plan for the fixture profile. -/
def fiveDayPlan : WorkoutPlan := create_simple_plan beginnerProfile 1 "plan-1"

/-- One completed-workout log for the fixtures. -/
def mkLog (log_id : String) (session_rpe : Int) : WorkoutLog :=
  { log_id, user_id := "alice", plan_id := "plan-1", day := .monday, exercises := [],
    session_rpe, duration_minutes := 30 }

/-- Five logs with session exertions 7,6,7,8,6 (the spec's metrics example). -/
def fiveLogs : List WorkoutLog :=
  [mkLog "l1" 7, mkLog "l2" 6, mkLog "l3" 7, mkLog "l4" 8, mkLog "l5" 6]

/-- Six logs against a five-day plan (one more than planned). -/
def sixLogs : List WorkoutLog :=
  [mkLog "l1" 7, mkLog "l2" 6, mkLog "l3" 7, mkLog "l4" 8, mkLog "l5" 6, mkLog "l6" 7]

/-- Store with alice's profile and her five logs for week 1. -/
def dbFiveLogs : Database :=
  { profiles := fun uid => if uid = "alice" then some beginnerProfile else none,
    plans := fun pid => if pid = "plan-1" then some fiveDayPlan else none,
    week_logs := fun uid week => if uid = "alice" ∧ week = 1 then fiveLogs else [] }

/-- Store with alice's profile and six logs for week 1. -/
def dbSixLogs : Database :=
  { profiles := fun uid => if uid = "alice" then some beginnerProfile else none,
    plans := fun pid => if pid = "plan-1" then some fiveDayPlan else none,
    week_logs := fun uid week => if uid = "alice" ∧ week = 1 then sixLogs else [] }

/-- Workflow state entering the metrics stage: alice's profile, week 1, the
five-day plan current. -/
def metricsState : WorkoutState :=
  { user_profile := some beginnerProfile, current_week := 1,
    current_plan := some fiveDayPlan }

/-! ## Claim theorems -/

/-- C4: for every plan and profile, `_validate_plan_structure` returns exactly
these findings: the "no days" finding iff the day list is empty; per day, a
time-budget finding iff the day's estimated duration strictly exceeds the
profile's session duration plus 15, and a "no exercises" finding iff the day's
exercise list is empty — and nothing else. -/
theorem C4_validate_plan_structure_exact (plan : WorkoutPlan) (profile : UserProfile) :
    validate_plan_structure plan profile =
      (if plan.days.isEmpty then ["No workout days defined"] else [])
        ++ plan.days.flatMap (fun day =>
          (if day.estimated_duration > profile.schedule.session_duration + 15
           then [day.day.value ++ " exceeds time limit"] else [])
          ++ (if day.exercises.isEmpty
              then [day.day.value ++ " has no exercises"] else [])) :=
  validate_plan_structure_eq plan profile

/-- C5: the validate-then-fix pass is additive-only — it maps each day to
itself unless the day has zero exercises, in which case exactly one minimal
placeholder exercise is inserted, and no other field (in particular no
estimated duration) changes — and it is idempotent: a second pass on the
repaired plan changes nothing. -/
theorem C5_repair_additive_and_idempotent (plan : WorkoutPlan) (profile : UserProfile) :
    repair_pass plan profile =
      { plan with days := plan.days.map (fun day =>
          if day.exercises.isEmpty
          then { day with exercises := [placeholder_exercise] } else day) }
    ∧ repair_pass (repair_pass plan profile) profile = repair_pass plan profile := by
  constructor
  · exact repair_pass_eq plan profile
  · rw [repair_pass_eq plan profile, repair_pass_eq _ profile]
    simp only [List.map_map]
    have : (repair_day ∘ repair_day) = repair_day := funext repair_day_idem
    rw [this]

/-- C3: `generate_plan` raises exactly when no profile is stored for the user
id; whenever a profile exists it returns a plan and persists it, for every
outcome of the model call and of response parsing (failures there are absorbed
by the template fallback, never surfaced). -/
theorem C3_generate_plan_error_iff_no_profile (db : Database)
    (llmResult : Except String String) (loads : String → Except String Json)
    (ai_id tpl_id uid : String) (week : Int) :
    (db.profiles uid = none →
      generate_plan db llmResult loads ai_id tpl_id uid week =
        Except.error "ValueError: User profile not found")
    ∧ (∀ profile, db.profiles uid = some profile →
        ∃ plan, generate_plan db llmResult loads ai_id tpl_id uid week =
          Except.ok (plan, db.save_workout_plan plan)) := by
  constructor
  · intro h
    unfold generate_plan Database.get_user_profile
    simp [h]
  · intro profile h
    unfold generate_plan Database.get_user_profile
    simp only [h]
    exact ⟨_, rfl⟩

/-- C3 witness: with the model call failing and JSON parsing failing, a
request for the unknown user "bob" raises, while a request for the stored user
"alice" returns and persists a plan. -/
theorem C3_generate_plan_witness :
    (generate_plan dbWithAlice (Except.error "API unavailable") failingLoads
        "plan-ai" "plan-tpl" "bob" 1 = Except.error "ValueError: User profile not found")
    ∧ (∃ plan, generate_plan dbWithAlice (Except.error "API unavailable") failingLoads
        "plan-ai" "plan-tpl" "alice" 1 =
          Except.ok (plan, dbWithAlice.save_workout_plan plan)) :=
  ⟨(C3_generate_plan_error_iff_no_profile dbWithAlice (Except.error "API unavailable")
      failingLoads "plan-ai" "plan-tpl" "bob" 1).1 rfl,
   (C3_generate_plan_error_iff_no_profile dbWithAlice (Except.error "API unavailable")
      failingLoads "plan-ai" "plan-tpl" "alice" 1).2 beginnerProfile rfl⟩

/-- C7: the adaptation decider never fails, emits only the four known tags in
the fixed order reduce_volume, deload_intensity, exercise_substitution,
adjust_timing (any subset may co-occur), and each tag appears exactly when its
independent rule fires: adherence < 0.6, average exertion > 8.5, a non-empty
pain-flag list, a non-empty schedule-conflict list. -/
theorem C7_adaptation_decision_rules (s : WorkoutState) :
    ∃ s1, adaptation_decision_node s = Except.ok s1
      ∧ s1.adaptation_context.adaptations.Sublist
          ["reduce_volume", "deload_intensity", "exercise_substitution", "adjust_timing"]
      ∧ ("reduce_volume" ∈ s1.adaptation_context.adaptations ↔
          ∃ m ∈ s.metrics, m.adherence_rate < 0.6)
      ∧ ("deload_intensity" ∈ s1.adaptation_context.adaptations ↔
          ∃ m ∈ s.metrics, m.average_rpe > 8.5)
      ∧ ("exercise_substitution" ∈ s1.adaptation_context.adaptations ↔
          (s.feedback_analysis.insights.getD {}).pain_flags ≠ [])
      ∧ ("adjust_timing" ∈ s1.adaptation_context.adaptations ↔
          (s.feedback_analysis.insights.getD {}).schedule_conflicts ≠ []) := by
  have hsub : ∀ (a b c d : Bool),
      ((((if a then ["reduce_volume"] else []) ++ (if b then ["deload_intensity"] else []))
        ++ (if c then ["exercise_substitution"] else []))
        ++ (if d then ["adjust_timing"] else [])).Sublist
        ["reduce_volume", "deload_intensity", "exercise_substitution", "adjust_timing"] := by
    decide
  have hm1 : ∀ (a b c d : Bool),
      ("reduce_volume" ∈ ((((if a then ["reduce_volume"] else [])
          ++ (if b then ["deload_intensity"] else []))
          ++ (if c then ["exercise_substitution"] else []))
          ++ (if d then ["adjust_timing"] else []))) ↔ a = true := by
    decide
  have hm2 : ∀ (a b c d : Bool),
      ("deload_intensity" ∈ ((((if a then ["reduce_volume"] else [])
          ++ (if b then ["deload_intensity"] else []))
          ++ (if c then ["exercise_substitution"] else []))
          ++ (if d then ["adjust_timing"] else []))) ↔ b = true := by
    decide
  have hm3 : ∀ (a b c d : Bool),
      ("exercise_substitution" ∈ ((((if a then ["reduce_volume"] else [])
          ++ (if b then ["deload_intensity"] else []))
          ++ (if c then ["exercise_substitution"] else []))
          ++ (if d then ["adjust_timing"] else []))) ↔ c = true := by
    decide
  have hm4 : ∀ (a b c d : Bool),
      ("adjust_timing" ∈ ((((if a then ["reduce_volume"] else [])
          ++ (if b then ["deload_intensity"] else []))
          ++ (if c then ["exercise_substitution"] else []))
          ++ (if d then ["adjust_timing"] else []))) ↔ d = true := by
    decide
  refine ⟨_, rfl, hsub _ _ _ _, Iff.trans (hm1 _ _ _ _) ?_, Iff.trans (hm2 _ _ _ _) ?_,
    Iff.trans (hm3 _ _ _ _) ?_, Iff.trans (hm4 _ _ _ _) ?_⟩
  · cases s.metrics <;> simp
  · cases s.metrics <;> simp
  · simp
  · simp

/-- C8: with a stored profile and zero logs for the requested week, the
metrics stage returns the state with only the stage tag advanced: the metrics
field stays absent (not zero-filled) and no error is recorded. -/
theorem C8_metrics_zero_logs_leaves_metrics_unset (db : Database) (s : WorkoutState)
    (profile : UserProfile) (hp : s.user_profile = some profile)
    (hm : s.metrics = none)
    (hlogs : db.week_logs profile.user_id s.current_week = []) :
    metrics_calculation_node db s =
      Except.ok { s with workflow_stage := "metrics_calculated" }
    ∧ ({ s with workflow_stage := "metrics_calculated" } : WorkoutState).metrics = none := by
  constructor
  · unfold metrics_calculation_node metrics_calculation_body
    rw [hp]
    simp [Database.get_week_logs, hlogs]
  · simpa using hm

/-- C8 witness: the zero-log week for the stored user leaves metrics absent
and advances the stage tag. -/
theorem C8_metrics_zero_logs_witness :
    metrics_calculation_node dbWithAlice
        { user_profile := some beginnerProfile, current_week := 2 } =
      Except.ok { ({ user_profile := some beginnerProfile, current_week := 2 } : WorkoutState)
        with workflow_stage := "metrics_calculated" }
    ∧ ({ ({ user_profile := some beginnerProfile, current_week := 2 } : WorkoutState)
        with workflow_stage := "metrics_calculated" } : WorkoutState).metrics = none :=
  C8_metrics_zero_logs_leaves_metrics_unset dbWithAlice
    { user_profile := some beginnerProfile, current_week := 2 } beginnerProfile
    rfl rfl rfl

/-- C9: `get_plan` returns the stored plan exactly when a plan with the given
id exists and its owner is the requesting user; otherwise it returns absent,
and the store is unchanged by the lookup. -/
theorem C9_get_plan_ownership (db : Database) (plan_id user_id : String) :
    (∀ p : WorkoutPlan, (get_plan db plan_id user_id).1 = some p ↔
        db.plans plan_id = some p ∧ p.user_id = user_id)
    ∧ (get_plan db plan_id user_id).2 = db := by
  unfold get_plan Database.get_workout_plan
  constructor
  · intro p
    cases hdb : db.plans plan_id with
    | none => simp [hdb]
    | some q =>
      by_cases h : q.user_id = user_id
      · simp only [hdb, h, if_pos rfl]
        constructor
        · intro hq
          obtain rfl := Option.some.inj hq
          exact ⟨rfl, h⟩
        · intro ⟨hq, _⟩
          exact hq
      · simp only [hdb]
        rw [if_neg h]
        constructor
        · intro hq
          exact absurd hq (by simp)
        · intro ⟨hq, hu⟩
          obtain rfl := Option.some.inj hq
          exact absurd hu h
  · cases db.plans plan_id with
    | none => rfl
    | some q => by_cases h : q.user_id = user_id <;> simp [h]

/-- The plan `_generate_ai_plan` builds when `_parse_ai_response` fell back:
the validated form of `fallback_ai_data`. -/
def fallback_payload_plan (ai_id : String) (profile : UserProfile) (week : Int) :
    WorkoutPlan :=
  { plan_id := ai_id, user_id := profile.user_id, week_number := week,
    days := [
      { day := .monday, focus := "upper_body",
        exercises := [
          { exercise_id := "push_ups", exercise_name := "Push-ups", sets := 3,
            reps := "8-12", rest_seconds := 60, target_rpe := 7,
            notes := some "AI generation failed, using fallback" }],
        estimated_duration := 30 }],
    adaptation_rationale := some "Fallback plan due to AI parsing error" }

/-- C1 counterexample: for the stored profile of "alice", week 1, and a model
response containing no JSON at all (the unparseable-response path the claim
covers), `generate_plan` succeeds but returns a plan with exactly ONE day
(monday, one exercise) — not the five days monday..friday the claim states:
the parse-level fallback of `_parse_ai_response` replaces the payload with a
single-day structure and no validation/repair runs on this path. -/
theorem C1_generate_plan_unparseable_cex :
    (generate_plan dbWithAlice (Except.ok "Sorry, I cannot produce a plan right now.")
        failingLoads "plan-ai" "plan-tpl" "alice" 1).map
      (fun r => (r.1.days.map (fun d => d.day), r.1.days.map (fun d => d.exercises.length)))
      = Except.ok ([WorkoutDay.monday], [1]) := by
  rfl

/-- C1 amended: for every stored profile and week, `generate_plan` returns a
plan; on the path where the model call raises, the plan is the deterministic
template with exactly five days tagged monday..friday, each with at least one
exercise; on the path where the model response is unparseable (the parse
fallback fires), the plan instead has exactly one day, tagged monday, with one
exercise. -/
theorem C1_generate_plan_fallback_shapes (db : Database)
    (loads : String → Except String Json) (ai_id tpl_id uid : String) (week : Int)
    (profile : UserProfile) (hprofile : db.profiles uid = some profile) :
    (∀ err, (generate_plan db (Except.error err) loads ai_id tpl_id uid week).map
        (fun r => (r.1.days.map (fun d => d.day),
                   r.1.days.all (fun d => !d.exercises.isEmpty)))
      = Except.ok ([WorkoutDay.monday, WorkoutDay.tuesday, WorkoutDay.wednesday,
                    WorkoutDay.thursday, WorkoutDay.friday], true))
    ∧ (∀ response, parse_ai_response loads response = fallback_ai_data →
        (generate_plan db (Except.ok response) loads ai_id tpl_id uid week).map
          (fun r => (r.1.days.map (fun d => d.day),
                     r.1.days.map (fun d => d.exercises.length)))
        = Except.ok ([WorkoutDay.monday], [1])) := by
  constructor
  · intro err
    unfold generate_plan Database.get_user_profile
    simp only
    rw [hprofile]
    rfl
  · intro response h
    have hai : generate_ai_plan (Except.ok response) loads ai_id profile week =
        Except.ok (fallback_payload_plan ai_id profile week) := by
      unfold generate_ai_plan
      dsimp only
      rw [h]
      rfl
    unfold generate_plan Database.get_user_profile
    simp only
    rw [hprofile]
    dsimp only
    rw [hai]
    rfl

/-- C1 witness: at the fixture profile, the model-call-failure path gives the
five-day template and the concrete unparseable response (no braces, so the
parse fallback provably fires) gives the one-day plan. -/
theorem C1_generate_plan_fallback_witness :
    ((generate_plan dbWithAlice (Except.error "API rate limit exceeded") failingLoads
        "plan-ai" "plan-tpl" "alice" 1).map
      (fun r => (r.1.days.map (fun d => d.day),
                 r.1.days.all (fun d => !d.exercises.isEmpty)))
      = Except.ok ([WorkoutDay.monday, WorkoutDay.tuesday, WorkoutDay.wednesday,
                    WorkoutDay.thursday, WorkoutDay.friday], true))
    ∧ ((generate_plan dbWithAlice (Except.ok "I could not build a JSON plan.") failingLoads
        "plan-ai" "plan-tpl" "alice" 1).map
      (fun r => (r.1.days.map (fun d => d.day),
                 r.1.days.map (fun d => d.exercises.length)))
      = Except.ok ([WorkoutDay.monday], [1])) :=
  ⟨(C1_generate_plan_fallback_shapes dbWithAlice failingLoads "plan-ai" "plan-tpl"
      "alice" 1 beginnerProfile rfl).1 "API rate limit exceeded",
   (C1_generate_plan_fallback_shapes dbWithAlice failingLoads "plan-ai" "plan-tpl"
      "alice" 1 beginnerProfile rfl).2 "I could not build a JSON plan." rfl⟩

/-- C2 counterexample: the plan-generation stage applied to a state whose user
profile is absent raises (the except handler's call to `_create_fallback_plan`
dereferences `profile.user_id` on `None`), contradicting the claim that every
stage catches internal failures and returns a state. -/
theorem C2_plan_generation_stage_raises_cex :
    plan_generation_node (Except.ok "irrelevant") failingLoads "plan-1" "plan-2"
      ({} : WorkoutState)
      = Except.error "AttributeError: NoneType object has no attribute user_id" := by
  rfl

/-- C2 amended: with a present user profile every one of the seven stage
functions returns a state (any internal failure is caught and recorded in
`error_context`); the absent-profile exception applies only to the
plan-generation stage, whose fallback construction in the except handler
dereferences the profile. -/
theorem C2_stages_return_state_with_profile (db : Database)
    (llmPlan llmFeedback llmRationale : Except String String)
    (loads : String → Except String Json)
    (loadsInsights : String → Except String InsightsData)
    (plan_id fallback_plan_id : String) (s : WorkoutState) (profile : UserProfile)
    (hp : s.user_profile = some profile) :
    (∃ s1, profile_intake_node db s = Except.ok s1)
    ∧ (∃ s1, plan_generation_node llmPlan loads plan_id fallback_plan_id s = Except.ok s1)
    ∧ (∃ s1, plan_validation_node s = Except.ok s1)
    ∧ (∃ s1, feedback_analysis_node llmFeedback loadsInsights s = Except.ok s1)
    ∧ (∃ s1, metrics_calculation_node db s = Except.ok s1)
    ∧ (∃ s1, adaptation_decision_node s = Except.ok s1)
    ∧ (∃ s1, rationale_generation_node llmRationale s = Except.ok s1) := by
  refine ⟨?_, ?_, ?_, ?_, ?_, ?_, ?_⟩
  · unfold profile_intake_node
    split <;> exact ⟨_, rfl⟩
  · cases hb : plan_generation_body llmPlan loads plan_id s with
    | ok s1 =>
      exact ⟨s1, by unfold plan_generation_node; rw [hb]⟩
    | error e =>
      exact ⟨{ s with
          error_context := some ("Plan generation error: " ++ e),
          current_plan := some (create_fallback_plan profile s.current_week fallback_plan_id) },
        by unfold plan_generation_node; rw [hb, hp]⟩
  · cases hb : plan_validation_body s with
    | ok s1 => exact ⟨s1, by unfold plan_validation_node; rw [hb]⟩
    | error e => exact ⟨_, by unfold plan_validation_node; rw [hb]⟩
  · unfold feedback_analysis_node
    dsimp only
    split
    · cases hb : feedback_analysis_body llmFeedback loadsInsights s with
      | ok s1 => exact ⟨s1, rfl⟩
      | error e => exact ⟨_, rfl⟩
    · exact ⟨_, rfl⟩
  · cases hb : metrics_calculation_body db s with
    | ok s1 => exact ⟨s1, by unfold metrics_calculation_node; rw [hb]⟩
    | error e => exact ⟨_, by unfold metrics_calculation_node; rw [hb]⟩
  · exact ⟨_, rfl⟩
  · unfold rationale_generation_node
    dsimp only
    split
    · cases llmRationale with
      | ok r => exact ⟨_, rfl⟩
      | error e => exact ⟨_, rfl⟩
    · exact ⟨_, rfl⟩

/-- C2 witness: at the fixture state (profile present) with a failing model, a
failing JSON parse, and an empty store, all seven stages return states. -/
theorem C2_stages_return_state_witness :
    (∃ s1, profile_intake_node dbWithAlice metricsState = Except.ok s1)
    ∧ (∃ s1, plan_generation_node (Except.error "API unavailable") failingLoads
        "plan-1" "plan-2" metricsState = Except.ok s1)
    ∧ (∃ s1, plan_validation_node metricsState = Except.ok s1)
    ∧ (∃ s1, feedback_analysis_node (Except.error "API unavailable")
        (fun _ => Except.error "Expecting value") metricsState = Except.ok s1)
    ∧ (∃ s1, metrics_calculation_node dbWithAlice metricsState = Except.ok s1)
    ∧ (∃ s1, adaptation_decision_node metricsState = Except.ok s1)
    ∧ (∃ s1, rationale_generation_node (Except.error "API unavailable") metricsState
        = Except.ok s1) :=
  C2_stages_return_state_with_profile dbWithAlice (Except.error "API unavailable")
    (Except.error "API unavailable") (Except.error "API unavailable") failingLoads
    (fun _ => Except.error "Expecting value") "plan-1" "plan-2" metricsState
    beginnerProfile rfl

/-- A metrics run with strictly more logs than (positively many) planned
sessions ends in the recorded pydantic ValidationError: the constructed
adherence rate exceeds the upper bound 1. -/
theorem metrics_overcount_run (db : Database) (s : WorkoutState)
    (profile : UserProfile) (logs : List WorkoutLog)
    (hp : s.user_profile = some profile)
    (hlogs : db.week_logs profile.user_id s.current_week = logs)
    (hover : planned_sessions s < (logs.length : Int))
    (hpos : 0 < planned_sessions s) :
    metrics_calculation_node db s = Except.ok { s with
      error_context := some ("Metrics calculation error: "
        ++ "ValidationError: adherence_rate must be less than or equal to 1") } := by
  have hlen_pos : 0 < logs.length := by
    by_contra hc
    have : logs.length = 0 := Nat.eq_zero_of_not_pos hc
    rw [this] at hover
    omega
  have hlen0 : logs.isEmpty = false := by
    cases hl : logs with
    | nil => rw [hl] at hlen_pos; simp at hlen_pos
    | cons a l => rfl
  have hpr : (0 : Rat) < ((planned_sessions s : Int) : Rat) := by exact_mod_cast hpos
  have h0 : ¬ (((logs.length : Int) : Rat) / ((planned_sessions s : Int) : Rat) < 0) :=
    not_lt.mpr (div_nonneg (by exact_mod_cast Int.natCast_nonneg logs.length) hpr.le)
  have h1 : 1 < ((logs.length : Int) : Rat) / ((planned_sessions s : Int) : Rat) :=
    (one_lt_div hpr).mpr (by exact_mod_cast hover)
  unfold metrics_calculation_node metrics_calculation_body
  rw [hp]
  dsimp only [Database.get_week_logs]
  rw [hlogs]
  simp only [hlen0, Bool.false_eq_true, if_false]
  rw [if_neg hpos.ne']
  unfold WeeklyMetrics.validated
  rw [if_neg h0, if_pos h1]

/-- C6 counterexample: with six logs against the five-day current plan (a
non-empty log list), the metrics stage computes no metrics at all — the
pydantic bound on adherence_rate fails and the metrics field stays absent —
contradicting the claim that for every non-empty list of week logs the stage
computes adherence = logs ÷ day count (which here would be 6/5). -/
theorem C6_metrics_overcount_cex :
    (metrics_calculation_node dbSixLogs metricsState).map (fun st => st.metrics)
      = Except.ok none := by
  rw [metrics_overcount_run dbSixLogs metricsState beginnerProfile sixLogs rfl rfl
    (by decide) (by decide)]
  rfl

/-- C6 amended: for every non-empty list of week logs whose count does not
exceed the planned-session count (the current plan's day count, or 5 without a
plan), the metrics stage computes adherence = log count ÷ planned count,
average exertion = mean of the session RPEs, strength-gain iff avg < 8 and
adherence > 0.8, endurance always true, form quality "improving" iff avg < 7
else "stable", and concerns = ["high_fatigue"] iff avg > 8.5, advancing the
stage tag. -/
theorem C6_metrics_formulas (db : Database) (s : WorkoutState) (profile : UserProfile)
    (logs : List WorkoutLog) (hp : s.user_profile = some profile)
    (hlogs : db.week_logs profile.user_id s.current_week = logs)
    (hne : logs ≠ []) (hcount : (logs.length : Int) ≤ planned_sessions s) :
    metrics_calculation_node db s = Except.ok { s with
      metrics := some
        { user_id := profile.user_id,
          week_number := s.current_week,
          adherence_rate := ((logs.length : Int) : Rat) / ((planned_sessions s : Int) : Rat),
          average_rpe := ((logs.map (fun log => (log.session_rpe : Rat))).sum)
            / ((logs.length : Nat) : Rat),
          completed_sessions := (logs.length : Int),
          total_planned_sessions := planned_sessions s,
          progression_indicators :=
            { strength_gains :=
                decide (((logs.map (fun log => (log.session_rpe : Rat))).sum)
                    / ((logs.length : Nat) : Rat) < 8)
                && decide (((logs.length : Int) : Rat) / ((planned_sessions s : Int) : Rat)
                    > 0.8),
              endurance_improvements := true,
              form_quality :=
                if ((logs.map (fun log => (log.session_rpe : Rat))).sum)
                    / ((logs.length : Nat) : Rat) < 7
                then "improving" else "stable" },
          concerns :=
            if ((logs.map (fun log => (log.session_rpe : Rat))).sum)
                / ((logs.length : Nat) : Rat) > 8.5
            then ["high_fatigue"] else [] },
      workflow_stage := "metrics_calculated" } := by
  have hlen_pos : 0 < logs.length := List.length_pos.mpr hne
  have hplanned_pos : 0 < planned_sessions s :=
    lt_of_lt_of_le (by exact_mod_cast hlen_pos) hcount
  have hlen0 : logs.isEmpty = false := by
    cases logs with
    | nil => exact absurd rfl hne
    | cons a l => rfl
  have hpr : (0 : Rat) < ((planned_sessions s : Int) : Rat) := by exact_mod_cast hplanned_pos
  have hlr : (0 : Rat) ≤ ((logs.length : Int) : Rat) := by
    exact_mod_cast Int.natCast_nonneg logs.length
  have h0 : ¬ (((logs.length : Int) : Rat) / ((planned_sessions s : Int) : Rat) < 0) :=
    not_lt.mpr (div_nonneg hlr hpr.le)
  have h1 : ¬ (1 < ((logs.length : Int) : Rat) / ((planned_sessions s : Int) : Rat)) :=
    not_lt.mpr ((div_le_one hpr).mpr (by exact_mod_cast hcount))
  unfold metrics_calculation_node metrics_calculation_body
  rw [hp]
  dsimp only [Database.get_week_logs]
  rw [hlogs]
  simp only [hlen0, Bool.false_eq_true, if_false]
  rw [if_neg hplanned_pos.ne']
  unfold WeeklyMetrics.validated
  rw [if_neg h0, if_neg h1]

/-- C6 witness: the spec's example — five logs with exertions 7,6,7,8,6
against the five-day plan yield adherence 1, average exertion 6.8 (= 34/5),
strength-gain true, form quality "improving", and no concerns. -/
theorem C6_metrics_example_witness :
    metrics_calculation_node dbFiveLogs metricsState = Except.ok { metricsState with
      metrics := some
        { user_id := "alice", week_number := 1, adherence_rate := 1,
          average_rpe := 6.8, completed_sessions := 5, total_planned_sessions := 5,
          progression_indicators :=
            { strength_gains := true, endurance_improvements := true,
              form_quality := "improving" },
          concerns := [] },
      workflow_stage := "metrics_calculated" } := by
  rw [C6_metrics_formulas dbFiveLogs metricsState beginnerProfile fiveLogs rfl rfl
    (by decide) (by decide)]
  have hsum : (fiveLogs.map (fun log => (log.session_rpe : Rat))).sum = 34 := by
    norm_num [fiveLogs, mkLog]
  have havg : ((fiveLogs.map (fun log => (log.session_rpe : Rat))).sum)
      / ((fiveLogs.length : Nat) : Rat) = 6.8 := by
    rw [hsum]
    norm_num [fiveLogs, mkLog]
  have hadh : (((fiveLogs.length : Int)) : Rat)
      / ((planned_sessions metricsState : Int) : Rat) = 1 := by
    norm_num [fiveLogs, mkLog, planned_sessions, metricsState, fiveDayPlan,
      create_simple_plan]
  rw [havg, hadh]
  norm_num [metricsState, beginnerProfile, fiveLogs, mkLog, planned_sessions,
    fiveDayPlan, create_simple_plan, Bool.and_eq_true, decide_eq_true_eq]

/-- C10: with a stored profile and strictly more logs than planned sessions
(planned positive), the metrics stage produces no metrics: the `WeeklyMetrics`
constructor's adherence upper bound of 1.0 fails, the failure is recorded in
the state's error note, and the metrics field remains unset (the stage tag is
not advanced either, since the assignment follows the failed construction). -/
theorem C10_metrics_overcount_no_metrics (db : Database) (s : WorkoutState)
    (profile : UserProfile) (logs : List WorkoutLog)
    (hp : s.user_profile = some profile) (hm : s.metrics = none)
    (hlogs : db.week_logs profile.user_id s.current_week = logs)
    (hover : planned_sessions s < (logs.length : Int))
    (hpos : 0 < planned_sessions s) :
    metrics_calculation_node db s = Except.ok { s with
      error_context := some ("Metrics calculation error: "
        ++ "ValidationError: adherence_rate must be less than or equal to 1") }
    ∧ ({ s with error_context := some ("Metrics calculation error: "
        ++ "ValidationError: adherence_rate must be less than or equal to 1") }
          : WorkoutState).metrics = none :=
  ⟨metrics_overcount_run db s profile logs hp hlogs hover hpos, by simpa using hm⟩

/-- C10 witness: six logs against the five-day plan — construction of the
metrics record fails on the adherence bound, the error note is written and the
metrics field stays absent. -/
theorem C10_metrics_overcount_witness :
    metrics_calculation_node dbSixLogs metricsState = Except.ok { metricsState with
      error_context := some ("Metrics calculation error: "
        ++ "ValidationError: adherence_rate must be less than or equal to 1") }
    ∧ ({ metricsState with error_context := some ("Metrics calculation error: "
        ++ "ValidationError: adherence_rate must be less than or equal to 1") }
          : WorkoutState).metrics = none :=
  C10_metrics_overcount_no_metrics dbSixLogs metricsState beginnerProfile sixLogs rfl rfl
    (by decide) (by decide) (by decide)

end WorkoutsApp
